import Mathlib

/-!
Verification of the teraskopi point-of-sale application's cart and
order-status logic.

The definitions below are a shallow embedding of the client-side logic in
`src/pages/POS.tsx` (cart operations, payment/change computation, checkout)
and `src/pages/Reports.tsx` (order-status derivation and item-status
updates).  JavaScript numbers are modelled as integers (`ℤ`): every numeric
value this logic manipulates (prices, stock levels, quantities, rupiah
amounts) is integral, and the claims involve only addition, multiplication,
subtraction and order comparisons, which `ℤ` interprets exactly.  Strings
are modelled as `String`, optional fields as `Option`, and the asynchronous
remote calls of `updateOrderItemStatus` as explicit `Except` outcomes.
JavaScript's `Array.prototype.sort` on strings (lexicographic by code
point, stable) is modelled by an insertion sort on `String`.
-/

set_option linter.unusedVariables false
set_option autoImplicit false

namespace Teraskopi

/-! ## Data model (interfaces in POS.tsx and Reports.tsx) -/

/-- Interface `MenuVariation` from POS.tsx: a selectable variation of a menu item. -/
structure MenuVariation where
  id : String
  name : String
  price_adjustment : ℤ
  is_active : Bool
deriving DecidableEq, Repr

/-- Interface `MenuItem` from POS.tsx (the fields the cart logic reads). -/
structure MenuItem where
  id : String
  name : String
  price : ℤ
  stock : ℤ
  category_id : String
  is_active : Bool
deriving DecidableEq, Repr

/-- Interface `CartItem` from POS.tsx: `MenuItem` fields plus quantity, subtotal,
selected variations and optional notes (`notes?: string`). -/
structure CartItem where
  id : String
  name : String
  price : ℤ
  stock : ℤ
  category_id : String
  is_active : Bool
  quantity : ℤ
  subtotal : ℤ
  selectedVariations : List MenuVariation
  notes : Option String
deriving DecidableEq, Repr

/-- Interface `OrderItem` from Reports.tsx (the fields the status logic reads). -/
structure OrderItem where
  id : String
  order_id : String
  menu_id : String
  qty : ℤ
  price_at_order : ℤ
  subtotal : ℤ
  status : String
  created_at : String
deriving DecidableEq, Repr

/-- Interface `Order` from Reports.tsx (the fields the status logic reads). -/
structure Order where
  id : String
  total : ℤ
  status : String
  payment_method : String
  payment_status : String
  customer_name : String
  created_at : String
deriving DecidableEq, Repr

/-! ## Order-status derivation (Reports.tsx, `calculateOrderStatus`) -/

/-- Function `calculateOrderStatus(orderId, items)` from Reports.tsx lines 315-335:
filter the items of the order, then classify. -/
def calculateOrderStatus (orderId : String) (items : List OrderItem) : String :=
  let orderItems := items.filter (fun item => item.order_id == orderId)
  if orderItems.length == 0 then "pending"
  else
    let allDelivered := orderItems.all (fun item => item.status == "delivered")
    let allReady := orderItems.all (fun item =>
      item.status == "ready" || item.status == "delivered")
    let anyPreparing := orderItems.any (fun item =>
      item.status == "preparing" || item.status == "ready" ||
      item.status == "delivered")
    let anyReady := orderItems.any (fun item =>
      item.status == "ready" || item.status == "delivered")
    if allDelivered then "completed"
    else if allReady then "ready"
    else if anyPreparing then "preparing"
    else "pending"

/-- The four-case rule exactly as claim C1 words it (spec §4 reading):
all delivered → completed; all ready-or-delivered → ready; any item
`preparing` → preparing; else pending.  Stated over the list of item
statuses; used only to compare against `calculateOrderStatus`. -/
def claimedStatusRule (statuses : List String) : String :=
  if statuses.all (fun s => s == "delivered") then "completed"
  else if statuses.all (fun s => s == "ready" || s == "delivered") then "ready"
  else if statuses.any (fun s => s == "preparing") then "preparing"
  else "pending"

/-- The four-case rule as the code actually implements it: the third case
fires when any item is `preparing`, `ready` or `delivered`. -/
def derivedStatusRule (statuses : List String) : String :=
  if statuses.all (fun s => s == "delivered") then "completed"
  else if statuses.all (fun s => s == "ready" || s == "delivered") then "ready"
  else if statuses.any (fun s =>
    s == "preparing" || s == "ready" || s == "delivered") then "preparing"
  else "pending"

/-- Rule `derivedStatusRule` extended with the empty-list fallback of
`calculateOrderStatus`. -/
def statusOfStatuses (statuses : List String) : String :=
  if statuses.length == 0 then "pending" else derivedStatusRule statuses

/-- The statuses of the items of one order, in list order. -/
def orderStatuses (orderId : String) (items : List OrderItem) : List String :=
  (items.filter (fun item => item.order_id == orderId)).map (fun item => item.status)

/-! ## Cart operations (POS.tsx) -/

/-- JavaScript `String.prototype.trim()`: strip leading and trailing
whitespace.  Modelled structurally over the character list so that concrete
instances compute. -/
def trimStr (s : String) : String :=
  ⟨(((s.data.dropWhile Char.isWhitespace).reverse).dropWhile Char.isWhitespace).reverse⟩

/-- Lexicographic comparison of character lists by code point: the order
JavaScript's default array sort comparator induces on strings.  Bool-valued
and structurally recursive so that concrete sorts compute. -/
def lexLe : List Char → List Char → Bool
  | [], _ => true
  | _ :: _, [] => false
  | a :: as, b :: bs =>
    if a.toNat < b.toNat then true
    else if b.toNat < a.toNat then false
    else lexLe as bs

/-- Lexicographic comparison of strings by code point. -/
def strLe (a b : String) : Bool := lexLe a.data b.data

/-- Insert a string into a lexicographically sorted list (stable). -/
def insertSorted (x : String) : List String → List String
  | [] => [x]
  | y :: ys => if strLe x y then x :: y :: ys else y :: insertSorted x ys

/-- JavaScript `Array.prototype.sort()` on string ids: a stable
lexicographic sort, modelled by insertion sort. -/
def sortStrings (l : List String) : List String := l.foldr insertSorted []

/-- Key `ids.sort().join(',')`: the composite key the cart code builds from a
list of variation ids. -/
def joinKey (ids : List String) : String := String.intercalate "," (sortStrings ids)

/-- Sum `variations.reduce((sum, v) => sum + v.price_adjustment, 0)`. -/
def variationSum (variations : List MenuVariation) : ℤ :=
  variations.foldl (fun sum v => sum + v.price_adjustment) 0

/-- The line-identity test the cart code repeats at each operation:
same menu id, same sorted-and-joined variation-id key, and the same
notes (an absent `notes` compares as the empty string, `item.notes || ''`). -/
def keyMatches (item : CartItem) (id : String) (variationKey : String)
    (notesKey : String) : Bool :=
  item.id == id &&
  joinKey (item.selectedVariations.map (fun v => v.id)) == variationKey &&
  item.notes.getD "" == notesKey

/-- Function `removeFromCart(id, variations, notes)` from POS.tsx lines 243-250. -/
def removeFromCart (cartItems : List CartItem) (id : String)
    (variations : List MenuVariation) (notes : Option String) : List CartItem :=
  let variationKey := joinKey (variations.map (fun v => v.id))
  cartItems.filter (fun item => !(keyMatches item id variationKey (notes.getD "")))

/-- Function `updateQuantity(id, quantity, variations, notes)` from POS.tsx lines
211-241: a non-positive quantity removes the line; otherwise every line with
the same identity key gets the new quantity and a freshly recomputed
subtotal, unless the new quantity exceeds that line's stock, in which case
the line is left unchanged. -/
def updateQuantity (cartItems : List CartItem) (id : String) (quantity : ℤ)
    (variations : List MenuVariation) (notes : Option String) : List CartItem :=
  if quantity ≤ 0 then removeFromCart cartItems id variations notes
  else
    cartItems.map (fun item =>
      let variationKey := joinKey (variations.map (fun v => v.id))
      if keyMatches item id variationKey (notes.getD "") then
        if quantity > item.stock then item
        else
          let variationPrice := variationSum item.selectedVariations
          let finalPrice := item.price + variationPrice
          { item with quantity := quantity, subtotal := finalPrice * quantity }
      else item)

/-- Function `addToCart(menu, variations, notes)` from POS.tsx lines 167-205: find an
existing line with the same (menu id, sorted variation-id key, trimmed
notes); if found, refuse when its quantity already reached the menu's stock
and otherwise bump it by one through `updateQuantity`; if not found, append
a fresh line with quantity 1 (notes stored trimmed, empty as absent). -/
def addToCart (cartItems : List CartItem) (menu : MenuItem)
    (variations : List MenuVariation) (notes : String) : List CartItem :=
  let variationKey := joinKey (variations.map (fun v => v.id))
  let notesKey := trimStr notes
  let existingItem := cartItems.find? (fun item => keyMatches item menu.id variationKey notesKey)
  let variationPrice := variationSum variations
  let finalPrice := menu.price + variationPrice
  match existingItem with
  | some existing =>
    if existing.quantity ≥ menu.stock then cartItems
    else updateQuantity cartItems existing.id (existing.quantity + 1)
      existing.selectedVariations existing.notes
  | none =>
    cartItems ++ [{ id := menu.id, name := menu.name, price := menu.price,
                    stock := menu.stock, category_id := menu.category_id,
                    is_active := menu.is_active, quantity := 1,
                    subtotal := finalPrice, selectedVariations := variations,
                    notes := if trimStr notes == "" then none else some (trimStr notes) }]

/-- Function `getTotalAmount()` from POS.tsx lines 252-254. -/
def getTotalAmount (cartItems : List CartItem) : ℤ :=
  cartItems.foldl (fun total item => total + item.subtotal) 0

/-- Function `getChangeAmount()` from POS.tsx lines 256-260: `cashReceived` models
the text field, `none` standing for an input `parseFloat` cannot parse
(`parseFloat(cashReceived) || 0` then yields 0). -/
def getChangeAmount (cartItems : List CartItem) (cashReceived : Option ℤ) : ℤ :=
  let received := cashReceived.getD 0
  let total := getTotalAmount cartItems
  received - total

/-! ## Checkout (POS.tsx, `processOrder`) -/

inductive PaymentMethod
  | cash
  | debit
  | credit
  | ewallet
deriving DecidableEq, Repr

inductive OrderType
  | order_and_pay
  | order_only
deriving DecidableEq, Repr

/-- The order row `processOrder` inserts (`orderData`); `payment_date` and
`user_id` are environment-dependent (clock, auth session) and the claims do
not mention them, so they are omitted. -/
structure NewOrder where
  total : ℤ
  payment_method : PaymentMethod
  payment_status : String
  status : String
  customer_name : String
deriving DecidableEq, Repr

/-- One row of the `order_items` insert built from a cart line;
`selected_variations` models the content of the `JSON.stringify`'d list. -/
structure NewOrderItemRec where
  order_id : String
  menu_id : String
  qty : ℤ
  price_at_order : ℤ
  subtotal : ℤ
  selected_variations : List MenuVariation
  notes : Option String
  status : String
deriving DecidableEq, Repr

/-- Decidable equality for `Except`, so that concrete runs of the checkout
can be checked by evaluation. -/
instance exceptDecEq {ε α : Type} [DecidableEq ε] [DecidableEq α] :
    DecidableEq (Except ε α) := fun a b =>
  match a, b with
  | Except.error e, Except.error f =>
    if h : e = f then Decidable.isTrue (by rw [h])
    else Decidable.isFalse (fun hc => h (Except.error.inj hc))
  | Except.error _, Except.ok _ => Decidable.isFalse (fun hc => Except.noConfusion hc)
  | Except.ok _, Except.error _ => Decidable.isFalse (fun hc => Except.noConfusion hc)
  | Except.ok x, Except.ok y =>
    if h : x = y then Decidable.isTrue (by rw [h])
    else Decidable.isFalse (fun hc => h (Except.ok.inj hc))

/-- Function `processOrder()` from POS.tsx lines 262-360, up to the successful
inserts: the three early returns (empty cart, blank customer name, and — for
a cash order-and-pay checkout — cash below the total) are modelled as
errors, and the success path returns the order row and the item rows that
are inserted, `orderId` standing for the id the backend assigns to the new
order. -/
def processOrder (cartItems : List CartItem) (customerName : String)
    (orderType : OrderType) (paymentMethod : PaymentMethod)
    (cashReceived : Option ℤ) (orderId : String) :
    Except String (NewOrder × List NewOrderItemRec) :=
  if cartItems.length == 0 then Except.error "Keranjang Kosong"
  else if trimStr customerName == "" then Except.error "Nama Pelanggan Diperlukan"
  else if orderType == OrderType.order_and_pay && paymentMethod == PaymentMethod.cash
      && decide (cashReceived.getD 0 < getTotalAmount cartItems) then
    Except.error "Uang Tidak Cukup"
  else
    let isPaying := orderType == OrderType.order_and_pay
    let orderData : NewOrder :=
      { total := getTotalAmount cartItems,
        payment_method := if isPaying then paymentMethod else PaymentMethod.cash,
        payment_status := if isPaying then "paid" else "unpaid",
        status := "pending",
        customer_name := trimStr customerName }
    let orderItems := cartItems.map (fun item =>
      ({ order_id := orderId, menu_id := item.id, qty := item.quantity,
         price_at_order := item.price, subtotal := item.subtotal,
         selected_variations := item.selectedVariations,
         notes := item.notes, status := "pending" } : NewOrderItemRec))
    Except.ok (orderData, orderItems)

/-! ## Item-status update (Reports.tsx, `updateOrderItemStatus`) -/

/-- The backend tables the update touches. -/
structure DB where
  orderItems : List OrderItem
  orders : List Order
deriving DecidableEq, Repr

/-- The success path of `updateOrderItemStatus` (Reports.tsx lines 337-420)
as a transition on the backend state: write the item's new status, refetch
all items of that order, and set the order's status to
`calculateOrderStatus` of that list.  `none` when no item has the given id
(the `.single()` fetch then errors). -/
def updateOrderItemStatusDB (db : DB) (itemId : String) (newStatus : String) :
    Option DB :=
  match db.orderItems.find? (fun it => it.id == itemId) with
  | none => none
  | some it0 =>
    let items1 := db.orderItems.map (fun it =>
      if it.id == itemId then { it with status := newStatus } else it)
    let updatedItem := { it0 with status := newStatus }
    let allOrderItems := items1.filter (fun it => it.order_id == updatedItem.order_id)
    let newOrderStatus := calculateOrderStatus updatedItem.order_id allOrderItems
    let orders1 := db.orders.map (fun o =>
      if o.id == updatedItem.order_id then { o with status := newOrderStatus } else o)
    some { orderItems := items1, orders := orders1 }

/-- The outcomes of the three remote calls `updateOrderItemStatus` awaits,
in program order: the item update-and-select, the refetch of the order's
items, and the order update-and-select. -/
structure RemoteOutcomes where
  updateItem : Except String OrderItem
  fetchItems : Except String (List OrderItem)
  updateOrder : Except String Order
deriving Repr

/-- The component's local state: the `orderItems` and `orders` React state. -/
structure LocalState where
  orderItems : List OrderItem
  orders : List Order
deriving DecidableEq, Repr

/-- What a run of `updateOrderItemStatus` leaves behind: the local state,
whether the destructive error toast was shown, and whether `fetchData` was
awaited to refresh everything. -/
structure UIResult where
  state : LocalState
  errorToast : Bool
  refetched : Bool
deriving DecidableEq, Repr

/-- The control flow of `updateOrderItemStatus` (Reports.tsx lines 337-420):
each remote failure is thrown to the single `catch`, which shows the error
toast and awaits `fetchData` (whose result `fetchResult` replaces the whole
local state); only after all three calls succeed is the local state patched
with the rows the backend returned. -/
def updateOrderItemStatusUI (st : LocalState) (itemId : String)
    (newStatus : String) (rem : RemoteOutcomes) (fetchResult : LocalState) :
    UIResult :=
  match rem.updateItem with
  | Except.error _ => { state := fetchResult, errorToast := true, refetched := true }
  | Except.ok updatedItem =>
    match rem.fetchItems with
    | Except.error _ => { state := fetchResult, errorToast := true, refetched := true }
    | Except.ok allOrderItems =>
      let newOrderStatus := calculateOrderStatus updatedItem.order_id allOrderItems
      match rem.updateOrder with
      | Except.error _ => { state := fetchResult, errorToast := true, refetched := true }
      | Except.ok updatedOrder =>
        { state :=
            { orderItems := st.orderItems.map (fun item =>
                if item.id == itemId then updatedItem else item),
              orders := st.orders.map (fun o =>
                if o.id == updatedItem.order_id then updatedOrder else o) },
          errorToast := false, refetched := false }

/-! ## Invariants named by the claims -/

/-- Stock-cap invariant: no cart line's quantity exceeds its stored stock. -/
def stockInv (cartItems : List CartItem) : Prop :=
  ∀ item ∈ cartItems, item.quantity ≤ item.stock

/-- One line's subtotal equation: subtotal = (base price + sum of selected
variations' adjustments) × quantity. -/
def lineSubtotalOk (item : CartItem) : Prop :=
  item.subtotal = (item.price + variationSum item.selectedVariations) * item.quantity

/-- Subtotal invariant over the whole cart. -/
def subInv (cartItems : List CartItem) : Prop :=
  ∀ item ∈ cartItems, lineSubtotalOk item

/-! ## Concrete inputs used by counterexamples and witnesses -/

/-- Two order items of order `o1`, one `ready` and one still `pending`. -/
def c1Items : List OrderItem :=
  [{ id := "i1", order_id := "o1", menu_id := "m1", qty := 1,
     price_at_order := 10, subtotal := 10, status := "ready", created_at := "t1" },
   { id := "i2", order_id := "o1", menu_id := "m2", qty := 1,
     price_at_order := 12, subtotal := 12, status := "pending", created_at := "t2" }]

/-- The items of `c1Items` in the other order, with different ids,
quantities, prices and timestamps but the same statuses. -/
def c2Items : List OrderItem :=
  [{ id := "i9", order_id := "o1", menu_id := "m9", qty := 4,
     price_at_order := 3, subtotal := 12, status := "pending", created_at := "t9" },
   { id := "i8", order_id := "o1", menu_id := "m8", qty := 2,
     price_at_order := 5, subtotal := 10, status := "ready", created_at := "t8" }]

/-- A one-order, one-item backend state. -/
def c3db : DB :=
  { orderItems := [{ id := "i1", order_id := "o1", menu_id := "m1", qty := 1,
                     price_at_order := 10, subtotal := 10, status := "pending",
                     created_at := "t1" }],
    orders := [{ id := "o1", total := 10, status := "pending",
                 payment_method := "cash", payment_status := "paid",
                 customer_name := "Budi", created_at := "t1" }] }

/-- The item of `c3db` before the update. -/
def c3item : OrderItem :=
  { id := "i1", order_id := "o1", menu_id := "m1", qty := 1,
    price_at_order := 10, subtotal := 10, status := "pending", created_at := "t1" }

/-- The backend state after updating item `i1` of `c3db` to `delivered`. -/
def c3db' : DB :=
  { orderItems := [{ id := "i1", order_id := "o1", menu_id := "m1", qty := 1,
                     price_at_order := 10, subtotal := 10, status := "delivered",
                     created_at := "t1" }],
    orders := [{ id := "o1", total := 10, status := "completed",
                 payment_method := "cash", payment_status := "paid",
                 customer_name := "Budi", created_at := "t1" }] }

/-- The order row of `c3db'`. -/
def c3order : Order :=
  { id := "o1", total := 10, status := "completed", payment_method := "cash",
    payment_status := "paid", customer_name := "Budi", created_at := "t1" }

/-- A variation whose id contains the separator the cart key uses. -/
def c4v1 : MenuVariation :=
  { id := "a,b", name := "v1", price_adjustment := 1, is_active := true }

def c4v2 : MenuVariation :=
  { id := "a", name := "v2", price_adjustment := 2, is_active := true }

def c4v3 : MenuVariation :=
  { id := "b", name := "v3", price_adjustment := 3, is_active := true }

def c4menu : MenuItem :=
  { id := "m1", name := "Kopi", price := 10, stock := 5, category_id := "c1",
    is_active := true }

/-- A cart holding one line of `c4menu` with the single variation `c4v1`. -/
def c4cart : List CartItem :=
  [{ id := "m1", name := "Kopi", price := 10, stock := 5, category_id := "c1",
     is_active := true, quantity := 1, subtotal := 11,
     selectedVariations := [c4v1], notes := none }]

/-- A cart line of `c4menu` with no variations whose quantity already equals
the stock. -/
def w4line : CartItem :=
  { id := "m1", name := "Kopi", price := 10, stock := 5, category_id := "c1",
    is_active := true, quantity := 5, subtotal := 50,
    selectedVariations := [], notes := none }

def w4cart : List CartItem := [w4line]

/-- The menu of `w4line`. -/
def w4menu : MenuItem :=
  { id := "m1", name := "Kopi", price := 10, stock := 5, category_id := "c1",
    is_active := true }

/-- A one-line cart with subtotal 10. -/
def w5cart : List CartItem :=
  [{ id := "m1", name := "Kopi", price := 10, stock := 5, category_id := "c1",
     is_active := true, quantity := 1, subtotal := 10,
     selectedVariations := [], notes := none }]

/-- A one-line cart: two units at base price 10. -/
def w6cart : List CartItem :=
  [{ id := "m1", name := "Kopi", price := 10, stock := 5, category_id := "c1",
     is_active := true, quantity := 2, subtotal := 20,
     selectedVariations := [], notes := none }]

/-- The order row `processOrder` builds from `w6cart` for a paid cash order. -/
def w6order : NewOrder :=
  { total := 20, payment_method := PaymentMethod.cash, payment_status := "paid",
    status := "pending", customer_name := "Budi" }

/-- The single order-item row `processOrder` builds from `w6cart`. -/
def w6rec : NewOrderItemRec :=
  { order_id := "o1", menu_id := "m1", qty := 2, price_at_order := 10,
    subtotal := 20, selected_variations := [], notes := none,
    status := "pending" }

/-- A local state distinct from the refetched one. -/
def c7state : LocalState :=
  { orderItems := c1Items, orders := [] }

/-- The state `fetchData` would install. -/
def c7fetch : LocalState :=
  { orderItems := c2Items,
    orders := [{ id := "o1", total := 22, status := "preparing",
                 payment_method := "cash", payment_status := "paid",
                 customer_name := "Budi", created_at := "t1" }] }

/-- Remote outcomes where the item update succeeds but the refetch of the
order's items fails. -/
def c7rem : RemoteOutcomes :=
  { updateItem := Except.ok c3item,
    fetchItems := Except.error "network error",
    updateOrder := Except.ok c3order }

/-- A menu with zero stock (the POS only lists menus with stock > 0, but
`addToCart` itself never checks the stock on the new-line path). -/
def c8menu : MenuItem :=
  { id := "m1", name := "Kopi", price := 10, stock := 0, category_id := "c1",
    is_active := true }

/-- A menu with positive stock. -/
def w8menu : MenuItem :=
  { id := "m1", name := "Kopi", price := 10, stock := 3, category_id := "c1",
    is_active := true }

def w9menu : MenuItem :=
  { id := "m1", name := "Kopi", price := 10, stock := 5, category_id := "c1",
    is_active := true }

def w9var : MenuVariation :=
  { id := "v1", name := "Large", price_adjustment := 2, is_active := true }

/-! ## General lemmas -/

theorem list_all_map {α β : Type} (l : List α) (f : α → β) (p : β → Bool) :
    (l.map f).all p = l.all (fun x => p (f x)) := by
  induction l with
  | nil => rfl
  | cons a t ih => simp [List.all_cons, ih]

theorem list_any_map {α β : Type} (l : List α) (f : α → β) (p : β → Bool) :
    (l.map f).any p = l.any (fun x => p (f x)) := by
  induction l with
  | nil => rfl
  | cons a t ih => simp [List.any_cons, ih]

theorem perm_all {α : Type} {l₁ l₂ : List α} (h : l₁.Perm l₂) (p : α → Bool) :
    l₁.all p = l₂.all p := by
  induction h with
  | nil => rfl
  | cons a h ih => simp [List.all_cons, ih]
  | swap a b t => simp [List.all_cons, Bool.and_left_comm]
  | trans h₁ h₂ ih₁ ih₂ => exact ih₁.trans ih₂

theorem perm_any {α : Type} {l₁ l₂ : List α} (h : l₁.Perm l₂) (p : α → Bool) :
    l₁.any p = l₂.any p := by
  induction h with
  | nil => rfl
  | cons a h ih => simp [List.any_cons, ih]
  | swap a b t => simp [List.any_cons, Bool.or_left_comm]
  | trans h₁ h₂ ih₁ ih₂ => exact ih₁.trans ih₂

theorem length_le_one_mem_eq {α : Type} {l : List α} (h : l.length ≤ 1)
    {a b : α} (ha : a ∈ l) (hb : b ∈ l) : a = b := by
  match l, ha, hb with
  | [x], ha, hb =>
    rw [List.mem_singleton] at ha hb
    rw [ha, hb]

theorem calculateOrderStatus_eq_statusOfStatuses (orderId : String)
    (items : List OrderItem) :
    calculateOrderStatus orderId items = statusOfStatuses (orderStatuses orderId items) := by
  simp only [calculateOrderStatus, statusOfStatuses, derivedStatusRule,
    orderStatuses, List.length_map, list_all_map, list_any_map]

/-- Filtering the items of an order is idempotent, so `calculateOrderStatus`
gives the same answer on the pre-filtered list. -/
theorem calculateOrderStatus_filter (orderId : String) (items : List OrderItem) :
    calculateOrderStatus orderId (items.filter (fun it => it.order_id == orderId)) =
      calculateOrderStatus orderId items := by
  unfold calculateOrderStatus
  rw [List.filter_filter]
  simp

theorem getTotalAmount_eq_sum (cartItems : List CartItem) :
    getTotalAmount cartItems = (cartItems.map (fun item => item.subtotal)).sum := by
  unfold getTotalAmount
  suffices h : ∀ (a : ℤ), cartItems.foldl (fun total item => total + item.subtotal) a =
      a + (cartItems.map (fun item => item.subtotal)).sum by
    simpa using h 0
  induction cartItems with
  | nil => intro a; simp
  | cons x t ih => intro a; simp [List.foldl_cons, ih, add_assoc]

theorem updateQuantity_stockInv (cartItems : List CartItem) (id : String)
    (quantity : ℤ) (variations : List MenuVariation) (notes : Option String)
    (hinv : stockInv cartItems) :
    stockInv (updateQuantity cartItems id quantity variations notes) := by
  unfold stockInv at hinv ⊢
  unfold updateQuantity
  split
  · intro item h
    exact hinv item (List.mem_of_mem_filter h)
  · intro item' h
    rw [List.mem_map] at h
    obtain ⟨item, hitem, rfl⟩ := h
    dsimp only
    split
    · split
      · exact hinv item hitem
      · rename_i hgt
        simpa using le_of_not_lt hgt
    · exact hinv item hitem

theorem addToCart_stockInv (cartItems : List CartItem) (menu : MenuItem)
    (variations : List MenuVariation) (notes : String)
    (hstock : 1 ≤ menu.stock) (hinv : stockInv cartItems) :
    stockInv (addToCart cartItems menu variations notes) := by
  simp only [addToCart]
  cases hfind : cartItems.find? (fun item =>
      keyMatches item menu.id (joinKey (List.map (fun v => v.id) variations))
        (trimStr notes)) with
  | none =>
    intro item h
    rw [List.mem_append] at h
    rcases h with h | h
    · exact hinv item h
    · rw [List.mem_singleton] at h
      subst h
      simpa using hstock
  | some existing =>
    dsimp only
    split
    · exact hinv
    · exact updateQuantity_stockInv cartItems existing.id (existing.quantity + 1)
        existing.selectedVariations existing.notes hinv

theorem updateQuantity_subInv (cartItems : List CartItem) (id : String)
    (quantity : ℤ) (variations : List MenuVariation) (notes : Option String)
    (hinv : subInv cartItems) :
    subInv (updateQuantity cartItems id quantity variations notes) := by
  unfold subInv at hinv ⊢
  unfold updateQuantity
  split
  · intro item h
    exact hinv item (List.mem_of_mem_filter h)
  · intro item' h
    rw [List.mem_map] at h
    obtain ⟨item, hitem, rfl⟩ := h
    dsimp only
    split
    · split
      · exact hinv item hitem
      · unfold lineSubtotalOk
        rfl
    · exact hinv item hitem

theorem removeFromCart_subInv (cartItems : List CartItem) (id : String)
    (variations : List MenuVariation) (notes : Option String)
    (hinv : subInv cartItems) :
    subInv (removeFromCart cartItems id variations notes) := by
  intro item h
  exact hinv item (List.mem_of_mem_filter h)

theorem addToCart_subInv (cartItems : List CartItem) (menu : MenuItem)
    (variations : List MenuVariation) (notes : String)
    (hinv : subInv cartItems) :
    subInv (addToCart cartItems menu variations notes) := by
  simp only [addToCart]
  cases hfind : cartItems.find? (fun item =>
      keyMatches item menu.id (joinKey (List.map (fun v => v.id) variations))
        (trimStr notes)) with
  | none =>
    intro item h
    rw [List.mem_append] at h
    rcases h with h | h
    · exact hinv item h
    · rw [List.mem_singleton] at h
      subst h
      unfold lineSubtotalOk
      simp
  | some existing =>
    dsimp only
    split
    · exact hinv
    · exact updateQuantity_subInv cartItems existing.id (existing.quantity + 1)
        existing.selectedVariations existing.notes hinv

/-! ## Claim theorems -/

/-- C1 counterexample: on a non-empty list of items of one order holding one
`ready` and one `pending` item, the code returns `preparing`, while the
claimed rule ("any item in-progress (`preparing`) → preparing; else
pending") returns `pending`: no item is `preparing`, yet the code's third
case also fires on `ready`/`delivered` items. -/
theorem c1_counterexample :
    c1Items ≠ [] ∧ (∀ item ∈ c1Items, item.order_id = "o1") ∧
    calculateOrderStatus "o1" c1Items = "preparing" ∧
    claimedStatusRule (orderStatuses "o1" c1Items) = "pending" ∧
    calculateOrderStatus "o1" c1Items ≠ claimedStatusRule (orderStatuses "o1" c1Items) := by
  refine ⟨by simp [c1Items], by decide, rfl, rfl, by decide⟩

/-- C1 (amended): for every non-empty list of order items belonging to one
order, the derived status follows the four-case rule whose third case is
"any item `preparing`, `ready` or `delivered` → preparing" (all delivered →
completed; all ready-or-delivered → ready; else pending). -/
theorem calculateOrderStatus_four_case (orderId : String) (items : List OrderItem)
    (h : orderStatuses orderId items ≠ []) :
    calculateOrderStatus orderId items = derivedStatusRule (orderStatuses orderId items) := by
  rw [calculateOrderStatus_eq_statusOfStatuses]
  unfold statusOfStatuses
  have hlen : ((orderStatuses orderId items).length == 0) = false := by
    simpa [List.length_eq_zero] using h
  rw [hlen]
  simp

/-- Witness for the amended C1 theorem at a concrete non-empty item list. -/
theorem calculateOrderStatus_four_case_witness :
    calculateOrderStatus "o1" c1Items = derivedStatusRule (orderStatuses "o1" c1Items) :=
  calculateOrderStatus_four_case "o1" c1Items (by decide)

/-- C2: the derived order status depends only on the multiset of the status
fields of the order's items: any two item lists whose status lists (for the
given order) are permutations of one another — in particular any
permutation of the items, and any change to non-status fields — yield the
same result.  Recomputation is idempotent because `calculateOrderStatus`
is a pure function: applying it again to the same arguments is
definitionally the same value. -/
theorem calculateOrderStatus_perm_invariant (orderId : String)
    (items₁ items₂ : List OrderItem)
    (h : (orderStatuses orderId items₁).Perm (orderStatuses orderId items₂)) :
    calculateOrderStatus orderId items₁ = calculateOrderStatus orderId items₂ := by
  rw [calculateOrderStatus_eq_statusOfStatuses, calculateOrderStatus_eq_statusOfStatuses]
  unfold statusOfStatuses derivedStatusRule
  rw [h.length_eq, perm_all h, perm_all h, perm_any h]

/-- Witness for C2: permuting the items and changing every non-status field
leaves the derived status unchanged. -/
theorem calculateOrderStatus_perm_invariant_witness :
    calculateOrderStatus "o1" c1Items = calculateOrderStatus "o1" c2Items :=
  calculateOrderStatus_perm_invariant "o1" c1Items c2Items (by decide)

/-- C10: an order with no matching items derives status `pending`, not
`completed`, although the two `all` conditions hold vacuously: both for an
empty item list and for a list whose items all belong to another order. -/
theorem calculateOrderStatus_no_items_pending :
    calculateOrderStatus "o1" ([] : List OrderItem) = "pending" ∧
    calculateOrderStatus "o1"
      [{ id := "i1", order_id := "o2", menu_id := "m1", qty := 1,
         price_at_order := 10, subtotal := 10, status := "delivered",
         created_at := "t1" }] = "pending" := by
  exact ⟨rfl, rfl⟩

/-- C3: on an item-status update, the order's status is recomputed from
scratch: in the resulting backend state, the status of the updated item's
order equals `calculateOrderStatus` applied to the full post-update item
list.  The right-hand side mentions only the new item list, so the result
does not depend on the order's previous status. -/
theorem updateOrderItemStatus_recomputes (db : DB) (itemId newStatus : String)
    (db' : DB) (it0 : OrderItem)
    (hfind : db.orderItems.find? (fun it => it.id == itemId) = some it0)
    (hupd : updateOrderItemStatusDB db itemId newStatus = some db') :
    ∀ o' ∈ db'.orders, o'.id = it0.order_id →
      o'.status = calculateOrderStatus it0.order_id db'.orderItems := by
  unfold updateOrderItemStatusDB at hupd
  rw [hfind] at hupd
  simp only [Option.some.injEq] at hupd
  subst hupd
  intro o' ho' hid
  simp only [List.mem_map] at ho'
  obtain ⟨o, ho, rfl⟩ := ho'
  by_cases hcase : (o.id == it0.order_id) = true
  · rw [if_pos hcase]
    simp only
    rw [calculateOrderStatus_filter]
  · rw [if_neg hcase] at hid ⊢
    exact absurd (beq_iff_eq.mpr hid) hcase

/-- Witness for C3: updating the only item of a one-item order to
`delivered` sets the order's status to the recomputed value (`completed`). -/
theorem updateOrderItemStatus_recomputes_witness :
    c3order.status = calculateOrderStatus "o1" c3db'.orderItems :=
  updateOrderItemStatus_recomputes c3db "i1" "delivered" c3db' c3item rfl rfl
    c3order (by decide) rfl

/-- C7: if any of the three remote calls of `updateOrderItemStatus` fails
(the item update, the item refetch, or the order update), the run ends in
the catch handler: the error toast is shown, the full data set is refetched,
and the resulting local state is exactly the refetched one — no partially
updated local state survives. -/
theorem updateOrderItemStatus_error_path (st : LocalState)
    (itemId newStatus : String) (rem : RemoteOutcomes) (fetchResult : LocalState)
    (h : (∃ e, rem.updateItem = Except.error e) ∨
         (∃ e, rem.fetchItems = Except.error e) ∨
         (∃ e, rem.updateOrder = Except.error e)) :
    updateOrderItemStatusUI st itemId newStatus rem fetchResult =
      { state := fetchResult, errorToast := true, refetched := true } := by
  unfold updateOrderItemStatusUI
  obtain ⟨u, f, o⟩ := rem
  simp only at h
  rcases h with ⟨e, he⟩ | ⟨e, he⟩ | ⟨e, he⟩ <;> subst he
  · rfl
  · cases u with
    | error _ => rfl
    | ok _ => rfl
  · cases u with
    | error _ => rfl
    | ok _ =>
      cases f with
      | error _ => rfl
      | ok _ => rfl

/-- Witness for C7: a failing item refetch leaves exactly the refetched
state, with the error toast shown. -/
theorem updateOrderItemStatus_error_path_witness :
    updateOrderItemStatusUI c7state "i1" "ready" c7rem c7fetch =
      { state := c7fetch, errorToast := true, refetched := true } :=
  updateOrderItemStatus_error_path c7state "i1" "ready" c7rem c7fetch
    (Or.inr (Or.inl ⟨"network error", rfl⟩))

/-- C5: the change equals the cash received minus the cart total, where the
total is the sum of the subtotals of all cart lines and an unparsable
cash-received input (`none`) counts as 0; and a cash order-and-pay checkout
never succeeds when the cash received is below the total. -/
theorem change_and_cash_refusal (cartItems : List CartItem)
    (cashReceived : Option ℤ) (customerName orderId : String) :
    getChangeAmount cartItems cashReceived =
      cashReceived.getD 0 - (cartItems.map (fun item => item.subtotal)).sum ∧
    (cashReceived.getD 0 < (cartItems.map (fun item => item.subtotal)).sum →
      (processOrder cartItems customerName OrderType.order_and_pay
          PaymentMethod.cash cashReceived orderId).isOk = false) := by
  constructor
  · unfold getChangeAmount
    rw [getTotalAmount_eq_sum]
  · intro h
    unfold processOrder
    split_ifs with h1 h2 h3
    · rfl
    · rfl
    · rfl
    · exfalso
      apply h3
      rw [← getTotalAmount_eq_sum] at h
      simp [h]

/-- Witness for C5: a cart totalling 10 with only 5 received: the change is
-5 and the cash checkout is refused. -/
theorem change_and_cash_refusal_witness :
    (processOrder w5cart "Budi" OrderType.order_and_pay PaymentMethod.cash
        (some 5) "o1").isOk = false :=
  (change_and_cash_refusal w5cart (some 5) "Budi" "o1").2 (by simp [w5cart])

/-- C6: a successful checkout creates the order with status `pending` and
total the sum of the line subtotals, and exactly one order-item row per cart
line, carrying the order id, the line's menu id, its quantity as `qty`, the
menu's base price as `price_at_order`, the line's subtotal, its selected
variations, and status `pending`. -/
theorem processOrder_creates_items (cartItems : List CartItem)
    (customerName orderId : String) (orderType : OrderType)
    (paymentMethod : PaymentMethod) (cashReceived : Option ℤ)
    (order : NewOrder) (recs : List NewOrderItemRec)
    (h : processOrder cartItems customerName orderType paymentMethod
        cashReceived orderId = Except.ok (order, recs)) :
    order.status = "pending" ∧
    order.total = (cartItems.map (fun item => item.subtotal)).sum ∧
    recs.length = cartItems.length ∧
    List.Forall₂ (fun (line : CartItem) (rec : NewOrderItemRec) =>
      rec.order_id = orderId ∧ rec.menu_id = line.id ∧ rec.qty = line.quantity ∧
      rec.price_at_order = line.price ∧ rec.subtotal = line.subtotal ∧
      rec.selected_variations = line.selectedVariations ∧
      rec.status = "pending") cartItems recs := by
  unfold processOrder at h
  split_ifs at h
  simp only [Except.ok.injEq, Prod.mk.injEq] at h
  obtain ⟨h0, rfl⟩ := h
  obtain rfl := h0
  refine ⟨rfl, getTotalAmount_eq_sum cartItems, List.length_map _ _, ?_⟩
  rw [List.forall₂_map_right_iff]
  exact List.forall₂_same.mpr (fun x _ => ⟨rfl, rfl, rfl, rfl, rfl, rfl, rfl⟩)

/-- Witness for C6: a one-line cart yields exactly one pending item row with
the line's quantity, base price, subtotal and variations. -/
theorem processOrder_creates_items_witness :
    w6order.status = "pending" ∧
    w6order.total = (w6cart.map (fun item => item.subtotal)).sum ∧
    [w6rec].length = w6cart.length ∧
    List.Forall₂ (fun (line : CartItem) (rec : NewOrderItemRec) =>
      rec.order_id = "o1" ∧ rec.menu_id = line.id ∧ rec.qty = line.quantity ∧
      rec.price_at_order = line.price ∧ rec.subtotal = line.subtotal ∧
      rec.selected_variations = line.selectedVariations ∧
      rec.status = "pending") w6cart [w6rec] :=
  processOrder_creates_items w6cart "Budi" "o1" OrderType.order_and_pay
    PaymentMethod.cash (some 100) w6order [w6rec] (by decide)

/-- C8 counterexample: the stock-cap property is not preserved by
`addToCart` on its new-line path: starting from the empty cart (where the
property holds vacuously) and a menu with stock 0, `addToCart` appends a
line with quantity 1 > stock 0 — the code only checks the stock on the
existing-line path. -/
theorem c8_counterexample :
    stockInv ([] : List CartItem) ∧ ¬ stockInv (addToCart [] c8menu [] "") := by
  unfold stockInv
  exact ⟨by simp, by decide⟩

/-- C8 (amended): `updateQuantity` always preserves the stock-cap
invariant, and `addToCart` preserves it whenever the menu passed in has at
least one unit of stock (which the POS guarantees by fetching only menus
with stock > 0); with a zero-stock menu the new-line path of `addToCart`
violates it. -/
theorem stock_cap_preserved (cartItems : List CartItem) (menu : MenuItem)
    (variations : List MenuVariation) (notes : String) (id : String)
    (quantity : ℤ) (notes' : Option String) :
    (stockInv cartItems → 1 ≤ menu.stock →
      stockInv (addToCart cartItems menu variations notes)) ∧
    (stockInv cartItems →
      stockInv (updateQuantity cartItems id quantity variations notes')) :=
  ⟨fun hinv hs => addToCart_stockInv cartItems menu variations notes hs hinv,
   fun hinv => updateQuantity_stockInv cartItems id quantity variations notes' hinv⟩

/-- Witness for C8: adding to an empty cart from a menu with stock 3 keeps
every quantity within stock. -/
theorem stock_cap_preserved_witness :
    stockInv (addToCart [] w8menu [] "") :=
  (stock_cap_preserved [] w8menu [] "" "x" 1 none).1
    (by intro item h; cases h) (by decide)

/-- C9: every line `addToCart` creates satisfies
subtotal = (price + sum of variation adjustments) × quantity, and
`updateQuantity` and `removeFromCart` preserve that equation for every
remaining line, so it holds for all lines after any sequence of these
operations. -/
theorem subtotal_invariant_preserved (cartItems : List CartItem)
    (menu : MenuItem) (variations : List MenuVariation) (notes : String)
    (id : String) (quantity : ℤ) (notes' : Option String) :
    (subInv cartItems → subInv (addToCart cartItems menu variations notes)) ∧
    (subInv cartItems →
      subInv (updateQuantity cartItems id quantity variations notes')) ∧
    (subInv cartItems →
      subInv (removeFromCart cartItems id variations notes')) :=
  ⟨fun hinv => addToCart_subInv cartItems menu variations notes hinv,
   fun hinv => updateQuantity_subInv cartItems id quantity variations notes' hinv,
   fun hinv => removeFromCart_subInv cartItems id variations notes' hinv⟩

/-- Witness for C9: a fresh line with one 2-rupiah variation on a 10-rupiah
menu satisfies the subtotal equation. -/
theorem subtotal_invariant_preserved_witness :
    subInv (addToCart [] w9menu [w9var] "x") :=
  (subtotal_invariant_preserved [] w9menu [w9var] "x" "y" 1 none).1
    (by intro item h; cases h)

/-- C4 counterexample: line identity is not the sorted *list* of variation
ids but its comma-*joined* string.  The cart holds one line of the menu with
the single variation id `"a,b"`; adding the same menu with the two
variations `"a"` and `"b"` — a different sorted id list — does not append a
new line: both lists join to the key `"a,b"`, so the code increments the
existing line's quantity to 2 instead. -/
theorem c4_counterexample :
    (∀ item ∈ c4cart,
      sortStrings (item.selectedVariations.map (fun v => v.id)) ≠
        sortStrings ([c4v2, c4v3].map (fun v => v.id))) ∧
    c4cart.length = 1 ∧
    (addToCart c4cart c4menu [c4v2, c4v3] "").length = 1 ∧
    (addToCart c4cart c4menu [c4v2, c4v3] "").map (fun item => item.quantity) = [2] := by
  refine ⟨by decide, rfl, by decide, by decide⟩

/-- C4 (amended): cart line-item identity is (menu id, comma-joined sorted
variation-id key, trimmed notes) — for variation-id lists that join to
distinct strings (e.g. comma-free ids) this coincides with the claimed
(menu id, sorted variation-id list, trimmed notes).  In a cart where at most
one line carries the key (an invariant of carts built by these operations):
if a line with the key exists and the stock checks pass, `addToCart`
increments exactly that line's quantity by one; if the line already reached
the menu's stock, the cart is unchanged; and if no line carries the key, a
new line with quantity 1 is appended. -/
theorem addToCart_line_identity (cartItems : List CartItem) (menu : MenuItem)
    (variations : List MenuVariation) (notes : String)
    (huniq : (cartItems.filter (fun item =>
      keyMatches item menu.id (joinKey (List.map (fun v => v.id) variations))
        (trimStr notes))).length ≤ 1) :
    (∀ ex, cartItems.find? (fun item =>
        keyMatches item menu.id (joinKey (List.map (fun v => v.id) variations))
          (trimStr notes)) = some ex →
      0 ≤ ex.quantity → ex.quantity < menu.stock → ex.quantity + 1 ≤ ex.stock →
      addToCart cartItems menu variations notes =
        cartItems.map (fun item =>
          if keyMatches item menu.id (joinKey (List.map (fun v => v.id) variations))
              (trimStr notes) then
            { item with quantity := item.quantity + 1,
                        subtotal := (item.price + variationSum item.selectedVariations) *
                          (item.quantity + 1) }
          else item)) ∧
    (∀ ex, cartItems.find? (fun item =>
        keyMatches item menu.id (joinKey (List.map (fun v => v.id) variations))
          (trimStr notes)) = some ex →
      menu.stock ≤ ex.quantity →
      addToCart cartItems menu variations notes = cartItems) ∧
    (cartItems.find? (fun item =>
        keyMatches item menu.id (joinKey (List.map (fun v => v.id) variations))
          (trimStr notes)) = none →
      addToCart cartItems menu variations notes =
        cartItems ++ [{ id := menu.id, name := menu.name, price := menu.price,
                        stock := menu.stock, category_id := menu.category_id,
                        is_active := menu.is_active, quantity := 1,
                        subtotal := menu.price + variationSum variations,
                        selectedVariations := variations,
                        notes := if trimStr notes == "" then none
                                 else some (trimStr notes) }]) := by
  refine ⟨?_, ?_, ?_⟩
  · intro ex hfind h0 hlt hle
    have hkey0 := List.find?_some hfind
    have hkey : keyMatches ex menu.id
        (joinKey (List.map (fun v => v.id) variations)) (trimStr notes) = true := hkey0
    have hmem : ex ∈ cartItems := List.mem_of_find?_eq_some hfind
    have hkey' := hkey
    unfold keyMatches at hkey'
    rw [Bool.and_eq_true, Bool.and_eq_true] at hkey'
    obtain ⟨⟨e1, e2⟩, e3⟩ := hkey'
    rw [beq_iff_eq] at e1 e2 e3
    simp only [addToCart]
    rw [hfind]
    dsimp only
    rw [if_neg (not_le.mpr hlt)]
    unfold updateQuantity
    rw [if_neg (by omega)]
    apply List.map_congr_left
    intro item hitem
    dsimp only
    rw [e1, e2, e3]
    by_cases hk : keyMatches item menu.id
        (joinKey (List.map (fun v => v.id) variations)) (trimStr notes) = true
    · rw [if_pos hk, if_pos hk]
      have hex : item = ex :=
        length_le_one_mem_eq huniq
          (List.mem_filter.mpr ⟨hitem, hk⟩)
          (List.mem_filter.mpr ⟨hmem, hkey⟩)
      rw [hex]
      rw [if_neg (not_lt.mpr hle)]
    · rw [if_neg hk, if_neg hk]
  · intro ex hfind hge
    simp only [addToCart]
    rw [hfind]
    dsimp only
    rw [if_pos hge]
  · intro hfind
    simp only [addToCart]
    rw [hfind]

/-- Witness for C4: adding the menu to a cart whose matching line already
sits at the stock cap leaves the cart unchanged. -/
theorem addToCart_line_identity_witness :
    addToCart w4cart w4menu [] "" = w4cart := by
  have huniq : (w4cart.filter (fun item =>
      keyMatches item w4menu.id
        (joinKey (List.map (fun v => v.id) ([] : List MenuVariation)))
        (trimStr ""))).length ≤ 1 := by decide
  have hfind : w4cart.find? (fun item =>
      keyMatches item w4menu.id
        (joinKey (List.map (fun v => v.id) ([] : List MenuVariation)))
        (trimStr "")) = some w4line := by decide
  have hge : w4menu.stock ≤ w4line.quantity := by decide
  exact (addToCart_line_identity w4cart w4menu [] "" huniq).2.1 w4line hfind hge

end Teraskopi
